import Mathlib

/-!
Shallow embedding of the vqls-prototype tutorial notebooks.

The repository consists of three Jupyter notebooks that call the external
`vqls_prototype` package (`VQLS`, `VQLSLog`):
  * `part_000` — "How to solve a linear system using VQLS amd precomputed
    quantum circuits" (solve from a weighted list of circuits);
  * `part_001` — "How to solve a linear system using VQLS" (solve from a
    dense random matrix);
  * `vqls_runtime.ipynb` — the runtime tutorial (dense symmetrized matrix,
    IBM runtime session, callback logger).

Each notebook is embedded as a list of cells; each code cell is a list of
statements over a small Python expression language.  The embedding keeps
every executable statement of the source cells, in source order, including
the source comments (as non-executed `commentLine` entries) because one
claim turns on a commented-out line.
-/

namespace VqlsNb

mutual

/-- Python expressions, restricted to the fragment the notebooks use. -/
inductive Expr where
  | var (x : String)
  | intLit (n : Int)
  | ratLit (num : Int) (den : Nat)
  | strLit (s : String)
  | boolLit (b : Bool)
  | getAttr (e : Expr) (fld : String)
  | call (f : Expr) (args : ArgList)
  | listLit (elems : ExprList)
  | dictLit (entries : ArgList)
  | neg (e : Expr)
  | add (a b : Expr)
  | div (a b : Expr)
  | pow (a b : Expr)

/-- Argument lists of a call: positional and keyword arguments in order. -/
inductive ArgList where
  | nil
  | pos (e : Expr) (rest : ArgList)
  | kw (k : String) (e : Expr) (rest : ArgList)

inductive ExprList where
  | nil
  | cons (e : Expr) (rest : ExprList)

end

/-- Simple (non-compound) Python statements.  A source `# ...` comment line is
kept as a `commentLine` so commented-out code is visibly not executed. -/
inductive SimpleStmt where
  | imprt (module : String) (names : List String)
  | assign (x : String) (e : Expr)
  | exprStmt (e : Expr)
  | commentLine (text : String)

/-- Compound statements.  The notebooks use only `with`; `try`/`for`/`while`
are in the grammar so that their absence from the embeddings is a fact about
the source, not about the grammar. -/
inductive Stmt where
  | simple (s : SimpleStmt)
  | withStmt (ctx : Expr) (asName : String) (body : List SimpleStmt)
  | tryStmt (body : List SimpleStmt) (handler : List SimpleStmt)
  | forStmt (v : String) (iter : Expr) (body : List SimpleStmt)
  | whileStmt (cond : Expr) (body : List SimpleStmt)

/-- A notebook cell: markdown text or code. -/
inductive Cell where
  | markdown (text : String)
  | code (stmts : List Stmt)

/-- A notebook is its list of cells, in order. -/
abbrev Notebook := List Cell

/-- Positional-argument list builders (shorthand for the embeddings). -/
def arg1 (a : Expr) : ArgList := .pos a .nil

def arg2 (a b : Expr) : ArgList := .pos a (.pos b .nil)

/-- Method call `obj.m(args)`. -/
def Expr.meth (obj : Expr) (m : String) (args : ArgList) : Expr :=
  .call (.getAttr obj m) args

/-- `np.random.rand(...)`. -/
def npRand (args : ArgList) : Expr :=
  .call (.getAttr (.getAttr (.var "np") "random") "rand") args

/-- src/unnamed/part_000: "How to solve a linear system using VQLS amd
precomputed quantum circuits".  Cell-by-cell embedding; LaTeX in the
markdown is transliterated to plain text. -/
def part000 : Notebook := [
  .markdown "How to solve a linear system using VQLS amd precomputed quantum circuits: this how-to guide explain how to sovle a linear systems of equations using VQLS when you already have quantum circuits to represent your matrix A and your vector b",
  .markdown "Step 1: Create the quantum circuits of your linear system. A = (1/2)(X0 X1 CNOT(0,1) + H0 X1 CNOT(0,1)) and ket b = H0 H1 ket 0. Use them as input of the .solve() method.",
  .code [
    .simple (.imprt "qiskit" ["QuantumCircuit"]),
    .simple (.commentLine "number of qbit in the circuit"),
    .simple (.assign "nqbit" (.intLit 2)),
    .simple (.commentLine "first quantum circuit for A"),
    .simple (.assign "qc1" (.call (.var "QuantumCircuit") (arg1 (.var "nqbit")))),
    .simple (.exprStmt ((Expr.var "qc1").meth "x" (arg1 (.intLit 0)))),
    .simple (.exprStmt ((Expr.var "qc1").meth "x" (arg1 (.intLit 1)))),
    .simple (.exprStmt ((Expr.var "qc1").meth "cx" (arg2 (.intLit 0) (.intLit 1)))),
    .simple (.commentLine "second quantum circuit for A"),
    .simple (.assign "qc2" (.call (.var "QuantumCircuit") (arg1 (.var "nqbit")))),
    .simple (.exprStmt ((Expr.var "qc2").meth "h" (arg1 (.intLit 0)))),
    .simple (.exprStmt ((Expr.var "qc2").meth "x" (arg1 (.intLit 1)))),
    .simple (.exprStmt ((Expr.var "qc2").meth "cx" (arg2 (.intLit 0) (.intLit 1)))),
    .simple (.commentLine "quantum circuit for b"),
    .simple (.assign "rhs" (.call (.var "QuantumCircuit") (arg1 (.var "nqbit")))),
    .simple (.exprStmt ((Expr.var "rhs").meth "h" (arg1 (.intLit 0)))),
    .simple (.exprStmt ((Expr.var "rhs").meth "h" (arg1 (.intLit 1))))],
  .markdown "Step 2: Create the solver. As for the previous tutorial we weill firs create the solver.",
  .code [
    .simple (.imprt "vqls_prototype" ["VQLS", "VQLSLog"]),
    .simple (.imprt "qiskit.primitives" ["Estimator"]),
    .simple (.imprt "qiskit_algorithms" ["optimizers as opt"]),
    .simple (.imprt "qiskit.circuit.library.n_local.real_amplitudes" ["RealAmplitudes"]),
    .simple (.assign "ansatz" (.call (.var "RealAmplitudes")
      (.pos (.var "nqbit") (.kw "entanglement" (.strLit "full")
        (.kw "reps" (.intLit 3) (.kw "insert_barriers" (.boolLit false) .nil)))))),
    .simple (.commentLine "instantiate an estimator primitive"),
    .simple (.assign "estimator" (.call (.var "Estimator") .nil)),
    .simple (.commentLine "create a logger"),
    .simple (.assign "log" (.call (.var "VQLSLog") (arg2 (.listLit .nil) (.listLit .nil)))),
    .simple (.commentLine "create the vqls solver"),
    .simple (.assign "vqls" (.call (.var "VQLS")
      (.pos (.var "estimator") (.pos (.var "ansatz")
        (.pos ((Expr.getAttr (.var "opt") "CG").call (.kw "maxiter" (.intLit 200) .nil)) .nil)))))],
  .markdown "We can now call the .solve() method and use a List of (float, QuantumCircuit) for the matrix and the QuantumCircuit for the vector.",
  .code [
    .simple (.assign "solution" ((Expr.var "vqls").meth "solve"
      (arg2
        (.listLit (.cons (.listLit (.cons (.ratLit 1 2) (.cons (.var "qc1") .nil)))
          (.cons (.listLit (.cons (.ratLit 1 2) (.cons (.var "qc2") .nil))) .nil)))
        (.var "rhs"))))]]

/-- src/unnamed/part_001: "How to solve a linear system using VQLS"
(dense-matrix how-to).  The source line `# A = A + A.T` is a comment in the
notebook and is embedded as a `commentLine`, not an assignment. -/
def part001 : Notebook := [
  .markdown "How to solve a linear system using VQLS: this how-to guide explain how to sovle a linear systems of equations using VQLS",
  .markdown "Step 1: Create your linear system. A linear system of equation is defined by a matrix A and a vector b that together define the linear system A times x = b. VQLS only works for symmetric matrices, i.e. A-dagger = A. Let's first generate a random matrix A and a random vector b.",
  .code [
    .simple (.imprt "numpy" ["np"]),
    .simple (.commentLine "size of the system"),
    .simple (.assign "size" (.intLit 4)),
    .simple (.commentLine "matrix of the linear system"),
    .simple (.assign "A" (npRand (arg2 (.var "size") (.var "size")))),
    .simple (.commentLine "A = A + A.T"),
    .simple (.commentLine "right hand side of the linear system"),
    .simple (.assign "b" (npRand (arg1 (.var "size"))))],
  .code [],
  .markdown "Step 2: Define the variational ansatz. VQLS uses a variational circuit called an ansatz, denoted V(theta), creating a proposed solution vector ket x = V(theta) ket 0. We will use the RealAmplitude circuit.",
  .code [
    .simple (.imprt "qiskit.circuit.library.n_local.real_amplitudes" ["RealAmplitudes"]),
    .simple (.assign "nqbit" (.call (.var "int")
      (arg1 (.call (.getAttr (.var "np") "log2") (arg1 (.var "size")))))),
    .simple (.assign "ansatz" (.call (.var "RealAmplitudes")
      (.pos (.var "nqbit") (.kw "entanglement" (.strLit "full")
        (.kw "reps" (.intLit 3) (.kw "insert_barriers" (.boolLit false) .nil)))))),
    .simple (.exprStmt (((Expr.var "ansatz").meth "decompose" .nil).meth "draw"
      (arg1 (.strLit "mpl"))))],
  .markdown "Step 3: Instantiate the VQLS solver.",
  .code [
    .simple (.imprt "vqls_prototype" ["VQLS", "VQLSLog"]),
    .simple (.imprt "qiskit.primitives" ["Estimator"]),
    .simple (.imprt "qiskit_algorithms" ["optimizers as opt"]),
    .simple (.commentLine "instantiate an estimator primitive"),
    .simple (.assign "estimator" (.call (.var "Estimator") .nil)),
    .simple (.commentLine "create a logger"),
    .simple (.assign "log" (.call (.var "VQLSLog") (arg2 (.listLit .nil) (.listLit .nil)))),
    .simple (.commentLine "create the vqls solver"),
    .simple (.assign "options" (.dictLit (.kw "matrix_decomposition" (.strLit "pauli")
      (.kw "verbose" (.boolLit true) .nil)))),
    .simple (.assign "vqls" (.call (.var "VQLS")
      (.pos (.var "estimator") (.pos (.var "ansatz")
        (.pos ((Expr.getAttr (.var "opt") "CG").call (.kw "maxiter" (.intLit 200) .nil))
          (.kw "options" (.var "options") .nil))))))],
  .markdown "Step 4: Solve the system of equations. The solver can easily be used to obtain a solution",
  .code [
    .simple (.assign "res" ((Expr.var "vqls").meth "solve" (arg2 (.var "A") (.var "b"))))],
  .markdown "Step 5: Visualize the evolution of the loss function. We can use the values logged in our dedicated logger to visualize how the value of the cost function evolves during the optimization process.",
  .code [
    .simple (.imprt "matplotlib.pyplot" ["plt"]),
    .simple (.exprStmt ((Expr.var "plt").meth "semilogy"
      (arg1 (.getAttr (.getAttr (.var "vqls") "logger") "values")))),
    .simple (.exprStmt ((Expr.var "plt").meth "ylabel" (arg1 (.strLit "Cost Function")))),
    .simple (.exprStmt ((Expr.var "plt").meth "xlabel" (arg1 (.strLit "Iterations"))))],
  .markdown "Step 6: validate the solution vector. The solution vector is now encoded in the state created by the variational circuit.",
  .code [
    .simple (.imprt "qiskit.quantum_info" ["Statevector"]),
    .simple (.assign "vqls_solution" (.call (.getAttr (.var "np") "real")
      (arg1 (.getAttr (.call (.var "Statevector")
        (arg1 (.getAttr (.var "res") "state"))) "data"))))],
  .markdown "We can now compute the solution using numpy.linalg.solve and compare the solutions given by the two methods",
  .code [
    .simple (.assign "ref_solution" (.call (.getAttr (.getAttr (.var "np") "linalg") "solve")
      (arg2 (.var "A") (.div (.var "b")
        (.call (.getAttr (.getAttr (.var "np") "linalg") "norm") (arg1 (.var "b"))))))),
    .simple (.assign "ref_solution" (.div (.var "ref_solution")
      (.call (.getAttr (.getAttr (.var "np") "linalg") "norm") (arg1 (.var "ref_solution"))))),
    .simple (.exprStmt ((Expr.var "plt").meth "scatter"
      (arg2 (.var "ref_solution") (.var "vqls_solution")))),
    .simple (.exprStmt ((Expr.var "plt").meth "plot"
      (.pos (.listLit (.cons (.neg (.intLit 1)) (.cons (.intLit 1) .nil)))
        (.pos (.listLit (.cons (.neg (.intLit 1)) (.cons (.intLit 1) .nil)))
          (.pos (.strLit "--") .nil)))))],
  .code []]

/-- src/docs/tutorials/vqls_runtime.ipynb: the runtime tutorial.  The VQLS
solver is constructed and run inside a `with Session(...) as session:` block;
the solve call is the last statement of that block. -/
def vqlsRuntime : Notebook := [
  .code [
    .simple (.imprt "vqls_prototype" ["VQLS", "VQLSLog"]),
    .simple (.imprt "qiskit_ibm_runtime" ["QiskitRuntimeService", "Estimator", "Session", "Options"]),
    .simple (.imprt "qiskit.circuit.library.n_local.real_amplitudes" ["RealAmplitudes"]),
    .simple (.imprt "qiskit.algorithms.optimizers" ["COBYLA"]),
    .simple (.imprt "numpy" ["np"])],
  .markdown "Variational Quantum Linear Solver. The VQLS is an hybrod variational method to solve linear systems A x = b where A is a square (symmetric) matrix and b the solution vector. The matrix A should be expressed as a sum of unitary matrices. The solution ket x is obtained by optimizing the parameters theta to minimize the cost function.",
  .markdown "Define the system. Let's start by creating a random symmetric 4x4 matrix A",
  .code [
    .simple (.assign "nqbit" (.intLit 2)),
    .simple (.assign "size" (.pow (.intLit 2) (.var "nqbit"))),
    .simple (.assign "A" (npRand (arg2 (.var "size") (.var "size")))),
    .simple (.assign "A" (.add (.var "A") (.getAttr (.var "A") "T")))],
  .markdown "and a random solution vector b",
  .code [
    .simple (.assign "b" (npRand (arg1 (.var "size"))))],
  .markdown "We can use the NumpyLinearSolver class to obtain the solution of this very simple system",
  .code [
    .simple (.imprt "qiskit.algorithms.linear_solvers.numpy_linear_solver" ["NumPyLinearSolver"]),
    .simple (.assign "classical_solution"
      ((Expr.call (.var "NumPyLinearSolver") .nil).meth "solve"
        (arg2 (.var "A") (.div (.var "b")
          (.call (.getAttr (.getAttr (.var "np") "linalg") "norm") (arg1 (.var "b")))))))],
  .markdown "Define the variational ansatz. We will use here the so-called RealAmplitude circuit. Since our matrix is 4x4 we will use 2 qbits.",
  .code [
    .simple (.assign "ansatz" (.call (.var "RealAmplitudes")
      (.pos (.var "nqbit") (.kw "entanglement" (.strLit "full")
        (.kw "reps" (.intLit 3) (.kw "insert_barriers" (.boolLit false) .nil))))))],
  .markdown "Start the Runtime session. We can start the runtime environement as follow:",
  .code [
    .simple (.commentLine "define the runtime"),
    .simple (.assign "service" (.call (.var "QiskitRuntimeService") .nil)),
    .simple (.assign "backend" (.strLit "simulator_statevector"))],
  .markdown "We can now call the VQLS class within a session to initialize the solver. We use here a statevector backend to obtain very accurate results",
  .code [
    .withStmt (.call (.var "Session")
        (.kw "service" (.var "service") (.kw "backend" (.var "backend") .nil))) "session" [
      .assign "options" (.call (.var "Options") .nil),
      .assign "estimator" (.call (.var "Estimator")
        (.kw "session" (.var "session") (.kw "options" (.var "options") .nil))),
      .assign "log" (.call (.var "VQLSLog") (arg2 (.listLit .nil) (.listLit .nil))),
      .assign "vqls" (.call (.var "VQLS")
        (.pos (.var "estimator") (.pos (.var "ansatz")
          (.pos (.call (.var "COBYLA")
              (.kw "maxiter" (.intLit 250) (.kw "disp" (.boolLit true) .nil)))
            (.kw "callback" (.getAttr (.var "log") "update") .nil))))),
      .assign "res" ((Expr.var "vqls").meth "solve" (arg2 (.var "A") (.var "b")))]],
  .markdown "The accuracy of the solution obtained with the VQLS solver can be estimated by comparing the solution vectors obtained with VQLS and the numpy solver",
  .code [
    .simple (.imprt "qiskit.quantum_info" ["Statevector"]),
    .simple (.imprt "matplotlib.pyplot" ["plt"]),
    .simple (.assign "ref_solution" (.div (.getAttr (.var "classical_solution") "state")
      (.call (.getAttr (.getAttr (.var "np") "linalg") "norm")
        (arg1 (.getAttr (.var "classical_solution") "state"))))),
    .simple (.assign "vqls_solution" (.call (.getAttr (.var "np") "real")
      (arg1 (.getAttr (.call (.var "Statevector")
        (arg1 (.getAttr (.var "res") "state"))) "data")))),
    .simple (.exprStmt ((Expr.var "plt").meth "scatter"
      (arg2 (.var "ref_solution") (.neg (.var "vqls_solution"))))),
    .simple (.exprStmt ((Expr.var "plt").meth "plot"
      (.pos (.listLit (.cons (.neg (.intLit 1)) (.cons (.intLit 1) .nil)))
        (.pos (.listLit (.cons (.neg (.intLit 1)) (.cons (.intLit 1) .nil)))
          (.pos (.strLit "--") .nil)))))],
  .code [
    .simple (.exprStmt ((Expr.var "plt").meth "plot"
      (arg1 (.getAttr (.var "log") "values"))))],
  .code []]

/-- The three notebooks of the repository, in src order. -/
def notebooks : List Notebook := [part000, part001, vqlsRuntime]

mutual

/-- All subexpressions of an expression, the expression itself included. -/
def Expr.subExprs : Expr → List Expr
  | .var x => [.var x]
  | .intLit n => [.intLit n]
  | .ratLit n d => [.ratLit n d]
  | .strLit s => [.strLit s]
  | .boolLit b => [.boolLit b]
  | .getAttr a fld => .getAttr a fld :: a.subExprs
  | .call f args => .call f args :: (f.subExprs ++ args.subExprsA)
  | .listLit es => .listLit es :: es.subExprsL
  | .dictLit entries => .dictLit entries :: entries.subExprsA
  | .neg a => .neg a :: a.subExprs
  | .add a b => .add a b :: (a.subExprs ++ b.subExprs)
  | .div a b => .div a b :: (a.subExprs ++ b.subExprs)
  | .pow a b => .pow a b :: (a.subExprs ++ b.subExprs)

def ArgList.subExprsA : ArgList → List Expr
  | .nil => []
  | .pos e rest => e.subExprs ++ rest.subExprsA
  | .kw _ e rest => e.subExprs ++ rest.subExprsA

def ExprList.subExprsL : ExprList → List Expr
  | .nil => []
  | .cons e rest => e.subExprs ++ rest.subExprsL

end

/-- The elements of an embedded Python list literal. -/
def ExprList.toList : ExprList → List Expr
  | .nil => []
  | .cons e rest => e :: rest.toList

/-- Whether an argument list carries a keyword argument named `k`. -/
def ArgList.hasKw (k : String) : ArgList → Bool
  | .nil => false
  | .pos _ rest => rest.hasKw k
  | .kw q _ rest => q == k || rest.hasKw k

/-- The top-level expressions evaluated by a simple statement. -/
def SimpleStmt.exprs : SimpleStmt → List Expr
  | .imprt _ _ => []
  | .assign _ e => [e]
  | .exprStmt e => [e]
  | .commentLine _ => []

/-- The simple statements a statement executes, with-bodies included. -/
def Stmt.simpleList : Stmt → List SimpleStmt
  | .simple s => [s]
  | .withStmt _ _ body => body
  | .tryStmt body handler => body ++ handler
  | .forStmt _ _ body => body
  | .whileStmt _ body => body

/-- The top-level expressions a statement evaluates (a with-statement also
evaluates its context manager expression). -/
def Stmt.exprs : Stmt → List Expr
  | .simple s => s.exprs
  | .withStmt ctx _ body => ctx :: (body.map SimpleStmt.exprs).flatten
  | .tryStmt body handler => ((body ++ handler).map SimpleStmt.exprs).flatten
  | .forStmt _ iter body => iter :: (body.map SimpleStmt.exprs).flatten
  | .whileStmt cond body => cond :: (body.map SimpleStmt.exprs).flatten

/-- The statements of a cell (empty for markdown cells). -/
def Cell.codeStmts : Cell → List Stmt
  | .markdown _ => []
  | .code stmts => stmts

/-- The markdown text of a cell, if any. -/
def Cell.markText : Cell → List String
  | .markdown t => [t]
  | .code _ => []

/-- All statements of a notebook, in execution order. -/
def nbStmts (nb : Notebook) : List Stmt := (nb.map Cell.codeStmts).flatten

/-- All simple statements of a notebook, in execution order, with-bodies
flattened in place. -/
def nbSimple (nb : Notebook) : List SimpleStmt :=
  ((nbStmts nb).map Stmt.simpleList).flatten

/-- All markdown cell texts of a notebook. -/
def nbMarkdown (nb : Notebook) : List String := (nb.map Cell.markText).flatten

/-- All source comment lines of a notebook. -/
def nbComments (nb : Notebook) : List String :=
  (nbSimple nb).filterMap fun s => match s with
    | .commentLine t => some t
    | _ => none

/-- Every expression appearing anywhere in a notebook, subexpressions
included. -/
def nbExprsDeep (nb : Notebook) : List Expr :=
  (((nbStmts nb).map Stmt.exprs).flatten.map Expr.subExprs).flatten

/-- Every call appearing anywhere in a notebook, as (callee, arguments). -/
def nbCalls (nb : Notebook) : List (Expr × ArgList) :=
  (nbExprsDeep nb).filterMap fun e => match e with
    | .call f args => some (f, args)
    | _ => none

/-- The assignments of a notebook, in execution order. -/
def nbAssigns (nb : Notebook) : List (String × Expr) :=
  (nbSimple nb).filterMap fun s => match s with
    | .assign x e => some (x, e)
    | _ => none

/-- The right-hand sides assigned to variable `x`, in order. -/
def assignsTo (nb : Notebook) (x : String) : List Expr :=
  (nbAssigns nb).filterMap fun p => if p.1 == x then some p.2 else none

/-- Variables bound to a `VQLS(...)` solver construction. -/
def vqlsVars (nb : Notebook) : List String :=
  (nbAssigns nb).filterMap fun p => match p.2 with
    | .call (.var "VQLS") _ => some p.1
    | _ => none

/-- Variables bound to a `VQLSLog(...)` logger construction. -/
def loggerVars (nb : Notebook) : List String :=
  (nbAssigns nb).filterMap fun p => match p.2 with
    | .call (.var "VQLSLog") _ => some p.1
    | _ => none

/-- The argument lists of every `VQLS`-solver `.solve(...)` call in the
notebook, found anywhere in any expression. -/
def vqlsSolveCalls (nb : Notebook) : List ArgList :=
  (nbCalls nb).filterMap fun fa => match fa.1 with
    | .getAttr (.var v) fld =>
        if fld == "solve" && (vqlsVars nb).contains v then some fa.2 else none
    | _ => none

/-- Whether a simple statement contains a `VQLS`-solver solve call. -/
def isSolveStmt (nb : Notebook) (s : SimpleStmt) : Bool :=
  s.exprs.any fun e => e.subExprs.any fun sub => match sub with
    | .call (.getAttr (.var v) fld) _ => fld == "solve" && (vqlsVars nb).contains v
    | _ => false

/-- Whether a simple statement mentions the variable `x` anywhere. -/
def stmtMentions (x : String) (s : SimpleStmt) : Bool :=
  s.exprs.any fun e => e.subExprs.any fun sub => match sub with
    | .var y => y == x
    | _ => false

/-- `leadsWith pat l`: `l` starts with the character list `pat`. -/
def leadsWith : List Char → List Char → Bool
  | [], _ => true
  | _ :: _, [] => false
  | c :: cs, d :: ds => c == d && leadsWith cs ds

/-- `subSeqAt pat l`: `pat` occurs contiguously somewhere in `l`. -/
def subSeqAt (pat : List Char) : List Char → Bool
  | [] => pat.isEmpty
  | c :: cs => leadsWith pat (c :: cs) || subSeqAt pat cs

/-- `containsText hay pat`: `pat` occurs as a substring of `hay`. -/
def containsText (hay pat : String) : Bool := subSeqAt pat.toList hay.toList

/-- Floor of the base-2 logarithm, by repeated halving (fuel-based so it
reduces inside the kernel). -/
def floorLog2Aux (fuel n : Nat) : Nat :=
  match fuel with
  | 0 => 0
  | fuel' + 1 => if n < 2 then 0 else floorLog2Aux fuel' (n / 2) + 1

/-- `floorLog2 n` is the floor of `log2 n` for `n > 0`. -/
def floorLog2 (n : Nat) : Nat := floorLog2Aux n n

/-- Integer evaluation of the arithmetic the notebooks do on sizes:
literals, variables, `2**nqbit`, and `int(np.log2(size))`.  The source
computes `np.log2` on floats and truncates with `int`; on the powers of two
the notebooks use this is exactly the floor of `log2`. -/
def evalNat (env : List (String × Nat)) : Expr → Option Nat
  | .intLit n => if n < 0 then none else some n.toNat
  | .var x => ((env.find? fun p => p.1 == x).map Prod.snd)
  | .pow a b => match evalNat env a, evalNat env b with
    | some m, some k => some (m ^ k)
    | _, _ => none
  | .call (.var "int") (.pos e .nil) => evalNat env e
  | .call (.getAttr (.var "np") "log2") (.pos e .nil) => (evalNat env e).map floorLog2
  | _ => none

/-- The integer environment a list of statements builds up, newest binding
first. -/
def natEnvOf (stmts : List SimpleStmt) : List (String × Nat) :=
  stmts.foldl (fun env s => match s with
    | .assign x e => match evalNat env e with
      | some n => (x, n) :: env
      | none => env
    | _ => env) []

/-- The shapes the notebooks' values can have, as far as the claims need:
dense matrices and vectors with their dimensions, quantum circuits with
their qubit count, solver and logger objects, scalars. -/
inductive Shape where
  | mat (rows cols : Nat)
  | vec (n : Nat)
  | circuit (nq : Nat)
  | solver
  | logger
  | scalar
  | other
deriving DecidableEq

/-- Shape inference for the notebooks' expressions: `np.random.rand` builds
dense arrays, `QuantumCircuit`/`RealAmplitudes` build circuits, `VQLS` and
`VQLSLog` build solver and logger objects, `.T` transposes, elementwise
`+`/`/`/`-` preserve array shapes. -/
def inferShape (natEnv : List (String × Nat)) (env : List (String × Shape)) :
    Expr → Shape
  | .var x => ((env.find? fun p => p.1 == x).map Prod.snd).getD .other
  | .intLit _ => .scalar
  | .ratLit _ _ => .scalar
  | .call (.getAttr (.getAttr (.var "np") "random") "rand") (.pos r (.pos c .nil)) =>
      match evalNat natEnv r, evalNat natEnv c with
      | some m, some n => .mat m n
      | _, _ => .other
  | .call (.getAttr (.getAttr (.var "np") "random") "rand") (.pos r .nil) =>
      match evalNat natEnv r with
      | some n => .vec n
      | none => .other
  | .call (.var "QuantumCircuit") (.pos e .nil) =>
      match evalNat natEnv e with
      | some q => .circuit q
      | none => .other
  | .call (.var "RealAmplitudes") (.pos e _) =>
      match evalNat natEnv e with
      | some q => .circuit q
      | none => .other
  | .call (.var "VQLS") _ => .solver
  | .call (.var "VQLSLog") _ => .logger
  | .getAttr a fld =>
      if fld == "T" then
        match inferShape natEnv env a with
        | .mat r c => .mat c r
        | _ => .other
      else .other
  | .add a b =>
      match inferShape natEnv env a, inferShape natEnv env b with
      | .mat r c, .mat r2 c2 => if r == r2 && c == c2 then .mat r c else .other
      | .vec n, .vec m => if n == m then .vec n else .other
      | _, _ => .other
  | .div a _ => inferShape natEnv env a
  | .neg a => inferShape natEnv env a
  | .pow _ _ => .scalar
  | _ => .other

/-- The shape environment a list of statements builds up, newest binding
first. -/
def shapeEnvOf (natEnv : List (String × Nat)) (stmts : List SimpleStmt) :
    List (String × Shape) :=
  stmts.foldl (fun env s => match s with
    | .assign x e => (x, inferShape natEnv env e) :: env
    | _ => env) []

/-- The notebook's final integer environment. -/
def nbNatEnv (nb : Notebook) : List (String × Nat) := natEnvOf (nbSimple nb)

/-- The notebook's final shape environment. -/
def nbShapeEnv (nb : Notebook) : List (String × Shape) :=
  shapeEnvOf (nbNatEnv nb) (nbSimple nb)

/-- The shape of an expression in the notebook's final environment. -/
def nbShape (nb : Notebook) (e : Expr) : Shape :=
  inferShape (nbNatEnv nb) (nbShapeEnv nb) e

/-- A dense square numeric matrix. -/
def Shape.isSquareMat : Shape → Bool
  | .mat r c => r == c
  | _ => false

/-- A dense numeric vector. -/
def Shape.isVec : Shape → Bool
  | .vec _ => true
  | _ => false

/-- A quantum circuit. -/
def Shape.isCircuit : Shape → Bool
  | .circuit _ => true
  | _ => false

/-- A `[scalar coefficient, unitary circuit]` pair, as a two-element list
literal whose first entry is a numeric literal and whose second entry is
circuit-shaped. -/
def weightedPair (nb : Notebook) : Expr → Bool
  | .listLit (.cons c (.cons q .nil)) =>
      (match nbShape nb c with
       | .scalar => true
       | _ => false) && (nbShape nb q).isCircuit
  | _ => false

/-- The coefficient argument of a solve call is either a dense square
numeric matrix or a non-empty weighted list of (coefficient, circuit)
pairs. -/
def coeffArgOK (nb : Notebook) (e : Expr) : Bool :=
  (nbShape nb e).isSquareMat ||
  (match e with
   | .listLit es => !(es.toList.isEmpty) && es.toList.all (weightedPair nb)
   | _ => false)

/-- The right-hand-side argument of a solve call is either a dense numeric
vector or a state-preparation circuit. -/
def rhsArgOK (nb : Notebook) (e : Expr) : Bool :=
  (nbShape nb e).isVec || (nbShape nb e).isCircuit

/-- Every `VQLS.solve` call of the notebook passes exactly two positional
arguments: an admissible coefficient argument and an admissible right-hand
side. -/
def solveArgsOK (nb : Notebook) : Bool :=
  (vqlsSolveCalls nb).all fun args => match args with
    | .pos a (.pos b .nil) => coeffArgOK nb a && rhsArgOK nb b
    | _ => false

/-- Variables bound to the value of a `VQLS.solve` call. -/
def resultVars (nb : Notebook) : List String :=
  (nbAssigns nb).filterMap fun p => match p.2 with
    | .call (.getAttr (.var v) fld) _ =>
        if fld == "solve" && (vqlsVars nb).contains v then some p.1 else none
    | _ => none

/-- Every attribute field read anywhere in the notebook off a solve-result
variable. -/
def resultFieldReads (nb : Notebook) : List String :=
  (nbExprsDeep nb).filterMap fun e => match e with
    | .getAttr (.var r) fld =>
        if (resultVars nb).contains r then some fld else none
    | _ => none

/-- Every `....values` read anywhere in the notebook (the cost-trajectory
reads). -/
def costValueReads (nb : Notebook) : List Expr :=
  (nbExprsDeep nb).filter fun e => match e with
    | .getAttr _ fld => fld == "values"
    | _ => false

/-- A cost-trajectory read goes through a logger: either `log.values` on a
notebook-constructed `VQLSLog`, or `vqls.logger.values` on the solver's own
logger attribute. -/
def costReadViaLogger (nb : Notebook) (e : Expr) : Bool :=
  match e with
  | .getAttr (.var l) fld => fld == "values" && (loggerVars nb).contains l
  | .getAttr (.getAttr (.var v) att) fld =>
      fld == "values" && att == "logger" && (vqlsVars nb).contains v
  | _ => false

/-- The argument lists of every `VQLS(...)` solver construction. -/
def vqlsCtorArgs (nb : Notebook) : List ArgList :=
  (nbAssigns nb).filterMap fun p => match p.2 with
    | .call (.var "VQLS") args => some args
    | _ => none

/-- Whether some `VQLS(...)` construction of the notebook passes a
`callback=` keyword argument. -/
def callbackPassed (nb : Notebook) : Bool :=
  (vqlsCtorArgs nb).any (ArgList.hasKw "callback")

/-- The value of the keyword argument named `k`, if passed. -/
def ArgList.kwValue (k : String) : ArgList → Option Expr
  | .nil => none
  | .pos _ rest => rest.kwValue k
  | .kw q e rest => if q == k then some e else rest.kwValue k

/-- Whether some `VQLS(...)` construction passes `callback=l.update` with
`l` a notebook-constructed `VQLSLog`. -/
def callbackIsLoggerUpdate (nb : Notebook) : Bool :=
  (vqlsCtorArgs nb).any fun args =>
    match args.kwValue "callback" with
    | some (.getAttr (.var l) fld) => fld == "update" && (loggerVars nb).contains l
    | _ => false

/-- Whether the notebook reads a cost trajectory at all. -/
def readsCostTrajectory (nb : Notebook) : Bool :=
  !(costValueReads nb).isEmpty

/-- No notebook code ever calls a method on a logger object, so notebook
code never mutates a logger after construction (`log.update` appears only
as a callback value, never called by the notebook). -/
def loggerNeverCalled (nb : Notebook) : Bool :=
  (nbCalls nb).all fun fa => match fa.1 with
    | .getAttr (.var l) _ => !((loggerVars nb).contains l)
    | _ => true

/-- Whether a simple statement builds an input of the linear system: a
quantum circuit construction or a random dense array. -/
def isBuildStmt : SimpleStmt → Bool
  | .assign _ (.call (.var "QuantumCircuit") _) => true
  | .assign _ (.call (.getAttr (.getAttr (.var "np") "random") "rand") _) => true
  | _ => false

/-- Whether a simple statement constructs the VQLS solver instance. -/
def isSolverCtorStmt : SimpleStmt → Bool
  | .assign _ (.call (.var "VQLS") _) => true
  | _ => false

/-- Whether a simple statement calls into the plotting library. -/
def isPlotStmt (s : SimpleStmt) : Bool :=
  s.exprs.any fun e => e.subExprs.any fun sub => match sub with
    | .call (.getAttr (.var m) _) _ => m == "plt"
    | _ => false

/-- Index of the first simple statement satisfying `p`, in execution
order. -/
def firstIdx (nb : Notebook) (p : SimpleStmt → Bool) : Option Nat :=
  (nbSimple nb).findIdx? p

/-- Strict order on optional indices: both present and first before
second. -/
def optLt (a b : Option Nat) : Bool :=
  match a, b with
  | some i, some j => i < j
  | _, _ => false

/-- Whether a notebook renders any plot. -/
def rendersPlot (nb : Notebook) : Bool := (nbSimple nb).any isPlotStmt

/-- The notebook follows the pipeline build inputs, construct solver, solve
exactly once, in that order. -/
def buildSolveOrderOK (nb : Notebook) : Bool :=
  optLt (firstIdx nb isBuildStmt) (firstIdx nb isSolverCtorStmt) &&
  optLt (firstIdx nb isSolverCtorStmt) (firstIdx nb (isSolveStmt nb)) &&
  ((nbSimple nb).filter (isSolveStmt nb)).length == 1

/-- The notebook additionally renders plots only after the solve call. -/
def plotsAfterSolveOK (nb : Notebook) : Bool :=
  rendersPlot nb && optLt (firstIdx nb (isSolveStmt nb)) (firstIdx nb isPlotStmt)

/-- The `with Session(...) as name:` blocks of a notebook. -/
def sessionBlocks (nb : Notebook) : List (Expr × String × List SimpleStmt) :=
  (nbStmts nb).filterMap fun s => match s with
    | .withStmt (.call (.var "Session") sargs) nm body =>
        some (.call (.var "Session") sargs, nm, body)
    | _ => none

/-- The simple statements appearing outside any compound statement. -/
def outsideWithSimple (nb : Notebook) : List SimpleStmt :=
  (nbStmts nb).filterMap fun s => match s with
    | .simple t => some t
    | _ => none

/-- Whether any expression of the notebook mentions the `Session` class at
all. -/
def usesSession (nb : Notebook) : Bool :=
  (nbExprsDeep nb).any fun e => match e with
    | .var x => x == "Session"
    | _ => false

/-- Inside a session block the bound session variable may appear only in an
assignment whose right-hand side is an `Estimator(...)` construction (the
handle is merely forwarded to the external estimator). -/
def sessionUseOK (nm : String) (s : SimpleStmt) : Bool :=
  !(stmtMentions nm s) ||
  (match s with
   | .assign _ (.call (.var "Estimator") _) => true
   | _ => false)

/-- Every session block of the notebook runs exactly one VQLS solve call
and forwards its session handle only to the `Estimator` constructor. -/
def scopedSessionOK (nb : Notebook) : Bool :=
  (sessionBlocks nb).all fun blk =>
    ((blk.2.2.filter (isSolveStmt nb)).length == 1) &&
    blk.2.2.all (sessionUseOK blk.2.1)

/-- Whether a statement is a `try`, `for` or `while` (the compound forms
error handling or retry logic would need). -/
def Stmt.isGuardOrLoop : Stmt → Bool
  | .tryStmt _ _ => true
  | .forStmt _ _ _ => true
  | .whileStmt _ _ => true
  | _ => false

/-- Whether notebook code calls `open`, `sys.exit`, or any `.write`
method. -/
def callsOpenExitWrite (nb : Notebook) : Bool :=
  (nbCalls nb).any fun fa => match fa.1 with
    | .var f => f == "open"
    | .getAttr (.var m) fld => (m == "sys" && fld == "exit") || fld == "write"
    | .getAttr _ fld => fld == "write"
    | _ => false

/-- No cell of the notebook authors any error handling: no `try`/`except`,
no loop that could retry, no exit call, no file write. -/
def authorsNoErrorHandling (nb : Notebook) : Bool :=
  ((nbStmts nb).all fun s => !(s.isGuardOrLoop)) && !(callsOpenExitWrite nb)

/-- The qubit count the ansatz is built on, read off the shape bound to
`ansatz`. -/
def ansatzQubits (nb : Notebook) : Option Nat :=
  match ((nbShapeEnv nb).find? fun p => p.1 == "ansatz").map Prod.snd with
  | some (.circuit q) => some q
  | _ => none

/-- The dimension of the right-hand side passed to the solve call: the
length of a dense vector, or `2 ^ q` for a state-preparation circuit on `q`
qubits. -/
def solveRhsDim (nb : Notebook) : Option Nat :=
  match vqlsSolveCalls nb with
  | [.pos _ (.pos b .nil)] =>
      match nbShape nb b with
      | .vec n => some n
      | .circuit q => some (2 ^ q)
      | _ => none
  | _ => none

/-- The variational state of an `n`-qubit ansatz has dimension `2 ^ n`;
this checks it equals the right-hand-side dimension. -/
def ansatzDimMatchesRhs (nb : Notebook) : Bool :=
  match ansatzQubits nb, solveRhsDim nb with
  | some q, some n => 2 ^ q == n
  | _, _ => false

/-- Whether a simple statement is the logger construction
`VQLSLog([], [])` with two empty list literals. -/
def isEmptyLoggerCtorStmt : SimpleStmt → Bool
  | .assign _ (.call (.var "VQLSLog")
      (.pos (.listLit .nil) (.pos (.listLit .nil) .nil))) => true
  | _ => false

/-- Whether some assignment of the notebook symmetrizes `A` by the
statement `A = A + A.T`. -/
def symmetrizesA (nb : Notebook) : Bool :=
  (assignsTo nb "A").any fun e => match e with
    | .add (.var x) (.getAttr (.var y) fld) => x == "A" && y == "A" && fld == "T"
    | _ => false

/-- A 4x4 matrix over the rationals (the concrete system size of all three
notebooks; real entries are modelled as rationals). -/
abbrev Mat4 := Fin 4 → Fin 4 → ℚ

/-- `A = A + A.T` applied to a drawn matrix, as the runtime notebook does
after drawing. -/
def runtimePipelineA (draw : Mat4) : Mat4 := fun i j => draw i j + draw j i

/-- The matrix part_001 passes to solve: the draw itself, since the only
assignment to `A` there is `A = np.random.rand(size, size)` and the
symmetrizing line is commented out. -/
def part001PipelineA (draw : Mat4) : Mat4 := draw

/-- Symmetry of a 4x4 matrix. -/
def IsSymm4 (M : Mat4) : Prop := ∀ i j, M i j = M j i

/-- A matrix in the support of the entrywise-uniform draw on `[0, 1)` that
is not symmetric. -/
def skewDraw : Mat4 := fun i j => ((i.val * 4 + j.val : ℕ) : ℚ) / 16

/-- Modelled from the spec: the `VQLS.solve` entry point of the external
`vqls_prototype` package (whose implementation is not under src/) returns a
result object exposing an optimized quantum state and reports, through the
optional callback/logger, one scalar cost value per optimization
iteration. -/
structure SolveOutcome where
  state : List ℚ
  costValues : List ℚ

/-- Modelled from the spec: a solve run of `niter` optimization iterations
with per-iteration cost `cost` ends in state `finalState` and delivers the
cost of every iteration, in order, to the callback/logger. -/
def solveModel (niter : Nat) (cost : Nat → ℚ) (finalState : List ℚ) :
    SolveOutcome :=
  { state := finalState, costValues := (List.range niter).map cost }

/-- Modelled from the spec: the logger's `update` callback appends each
reported cost value, so after one solve the logger holds its prior values
followed by that run's cost values. -/
def loggerValuesAfterSolve (initialValues : List ℚ) (outcome : SolveOutcome) :
    List ℚ :=
  initialValues ++ outcome.costValues

/-- Every read of a solve-result variable accesses only its `state`
attribute, and every cost-trajectory read goes through a logger. -/
def resultAndCostReadsOK (nb : Notebook) : Bool :=
  (resultFieldReads nb).all (· == "state") &&
  (costValueReads nb).all (costReadViaLogger nb)

/-- A cost-trajectory read off the solver's own internal logger attribute,
`vqls.logger.values`. -/
def solverInternalLoggerRead (nb : Notebook) (e : Expr) : Bool :=
  match e with
  | .getAttr (.getAttr (.var v) att) fld =>
      fld == "values" && att == "logger" && (vqlsVars nb).contains v
  | _ => false

/-- The notebook constructs `VQLSLog([], [])` exactly once, before its
single solve call. -/
def emptyLoggerBeforeSolve (nb : Notebook) : Bool :=
  optLt (firstIdx nb isEmptyLoggerCtorStmt) (firstIdx nb (isSolveStmt nb)) &&
  ((nbSimple nb).filter (isSolveStmt nb)).length == 1 &&
  ((nbSimple nb).filter isEmptyLoggerCtorStmt).length == 1

/-!  Claim theorems.  -/

/-- C1: every `VQLS.solve` invocation in the notebooks (there is exactly
one per notebook) passes as coefficient argument either a dense square
numeric matrix or a weighted list of (scalar coefficient, unitary-circuit)
pairs, and as right-hand side either a dense numeric vector or a
state-preparation circuit; no call passes any other shape. -/
theorem C1_solve_input_shapes :
    ((notebooks.map fun nb => (vqlsSolveCalls nb).length) = [1, 1, 1]) ∧
    (notebooks.all solveArgsOK = true) :=
  ⟨rfl, rfl⟩

/-- C2: in every notebook the solve result is bound to a variable
(`solution`, `res`, `res`), the only attribute ever read off such a
variable is `state`, and every cost-trajectory read goes through a logger
object, never through the result; per the spec-modelled solve contract, the
result exposes the optimized state and the logger receives one scalar cost
value per optimization iteration. -/
theorem C2_result_state_and_logger_costs :
    (notebooks.map resultVars = [["solution"], ["res"], ["res"]]) ∧
    (notebooks.all resultAndCostReadsOK = true) ∧
    (∀ niter cost finalState,
      (solveModel niter cost finalState).state = finalState ∧
      (solveModel niter cost finalState).costValues.length = niter) := by
  refine ⟨rfl, rfl, fun niter cost finalState => ⟨rfl, ?_⟩⟩
  simp [solveModel]

/-- C4: in part_001 the only assignment to `A` is the raw entrywise-uniform
draw and the symmetrizing statement survives only as the comment
`A = A + A.T`, while the notebook's own markdown states the symmetric
precondition; the identity pipeline preserves any non-symmetric draw (a
witness with entries in `[0, 1)` is exhibited), whereas the runtime
notebook's `A = A + A.T` always produces a symmetric matrix. -/
theorem C4_part001_matrix_never_symmetrized :
    (assignsTo part001 "A" = [npRand (arg2 (.var "size") (.var "size"))]) ∧
    ((nbComments part001).contains "A = A + A.T" = true) ∧
    (symmetrizesA part001 = false) ∧
    ((nbMarkdown part001).any
      (fun t => containsText t "VQLS only works for symmetric matrices") = true) ∧
    (symmetrizesA vqlsRuntime = true) ∧
    (∀ draw : Mat4, part001PipelineA draw = draw) ∧
    ((∀ i j, 0 ≤ skewDraw i j ∧ skewDraw i j < 1) ∧
      ¬ IsSymm4 (part001PipelineA skewDraw)) ∧
    (∀ draw : Mat4, IsSymm4 (runtimePipelineA draw)) := by
  refine ⟨rfl, rfl, rfl, rfl, rfl, fun _ => rfl, ⟨?_, ?_⟩, ?_⟩
  · intro i j
    have hk : (i.val * 4 + j.val : ℕ) < 16 := by
      have hi := i.isLt
      have hj := j.isLt
      omega
    unfold skewDraw
    refine ⟨div_nonneg (by positivity) (by norm_num), ?_⟩
    rw [div_lt_one (by norm_num)]
    exact_mod_cast hk
  · intro h
    have h01 := h 0 1
    norm_num [part001PipelineA, skewDraw] at h01
  · intro draw i j
    exact add_comm (draw i j) (draw j i)

/-- C5 counterexample: the claim says every notebook renders a plot of
convergence and solution accuracy, but part_000 contains no plotting
statement at all. -/
theorem C5_counterexample_part000_renders_no_plot :
    rendersPlot part000 = false := rfl

/-- C5 (amended): every notebook builds its inputs, constructs a VQLS
solver, and calls solve exactly once, in that order; part_001 and the
runtime notebook then render plots after the solve, while part_000 ends at
the solve call with no plotting cell. -/
theorem C5_amended_pipeline :
    (notebooks.all buildSolveOrderOK = true) ∧
    ([part001, vqlsRuntime].all plotsAfterSolveOK = true) ∧
    (rendersPlot part000 = false) :=
  ⟨rfl, rfl, rfl⟩

/-- C6: only the runtime notebook touches a remote backend session; it
opens exactly one `with Session(...) as session:` scope, runs exactly one
solve call inside it, references the session handle only to forward it to
the external `Estimator` constructor, and authors no other statement
mentioning the session (scope exit closes it); no solve call happens
outside the block. -/
theorem C6_session_scoped :
    (usesSession part000 = false) ∧ (usesSession part001 = false) ∧
    ((sessionBlocks vqlsRuntime).length = 1) ∧
    (scopedSessionOK vqlsRuntime = true) ∧
    (((outsideWithSimple vqlsRuntime).all fun s => !(stmtMentions "session" s)) = true) ∧
    (((outsideWithSimple vqlsRuntime).filter (isSolveStmt vqlsRuntime)).length = 0) :=
  ⟨rfl, rfl, rfl, rfl, rfl, rfl⟩

/-- C7 counterexample: part_001 reads a cost trajectory
(`vqls.logger.values`) although its notebook code passes no callback into
the solver, so trajectory recording does not always happen by passing a
logger's update method as a callback. -/
theorem C7_counterexample_part001_trajectory_without_callback :
    readsCostTrajectory part001 = true ∧ callbackPassed part001 = false :=
  ⟨rfl, rfl⟩

/-- C7 (amended): only the runtime notebook records its trajectory by
passing `log.update` as the solver callback; part_001 reads the trajectory
from the solver's internal logger attribute without passing any callback;
in every notebook each logger is constructed exactly once and notebook code
never calls a method on it afterwards, so no logger is mutated by notebook
code between construction and the post-solve read. -/
theorem C7_amended_logger_callback_discipline :
    (callbackPassed vqlsRuntime = true) ∧
    (callbackIsLoggerUpdate vqlsRuntime = true) ∧
    (callbackPassed part000 = false) ∧
    (callbackPassed part001 = false) ∧
    ((costValueReads part001).all (solverInternalLoggerRead part001) = true) ∧
    (notebooks.all loggerNeverCalled = true) ∧
    (notebooks.map (fun nb => (assignsTo nb "log").length) = [1, 1, 1]) :=
  ⟨rfl, rfl, rfl, rfl, rfl, rfl, rfl⟩

/-- C8: no notebook authors any error handling: no `try`/`except`, no loop
that could implement a retry, no `open`/`sys.exit`/`.write` call anywhere,
so exceptions from the external solver propagate unhandled out of the
cell. -/
theorem C8_no_error_handling :
    notebooks.all authorsNoErrorHandling = true := rfl

/-- C9: in every notebook the ansatz is built on 2 qubits (part_001
computing that count as `int(np.log2(size))`), the right-hand side of the
solve call has dimension 4, and `2 ^ 2 = 4`, so the variational state's
dimension always equals the right-hand-side dimension. -/
theorem C9_ansatz_qubits_match_dimension :
    (notebooks.map ansatzQubits = [some 2, some 2, some 2]) ∧
    (notebooks.map solveRhsDim = [some 4, some 4, some 4]) ∧
    (notebooks.all ansatzDimMatchesRhs = true) ∧
    (evalNat (nbNatEnv part001) (.var "nqbit") = some 2) :=
  ⟨rfl, rfl, rfl, rfl⟩

/-- C10: every notebook constructs `VQLSLog([], [])` exactly once, before
its single solve call; per the spec-modelled logger contract, a logger
starting from the empty sequence holds after one solve exactly that solve's
cost values. -/
theorem C10_logger_empty_before_single_solve :
    (notebooks.all emptyLoggerBeforeSolve = true) ∧
    (∀ outcome : SolveOutcome,
      loggerValuesAfterSolve [] outcome = outcome.costValues) := by
  refine ⟨rfl, fun outcome => ?_⟩
  simp [loggerValuesAfterSolve]

end VqlsNb
